import Mathlib

/-!
Shallow embedding of `src/Main.py` (a Streamlit app showing the user's saved
YouTube videos and Reddit posts) and proofs about its session-state operations.

The script runs top to bottom on every render pass against a persistent
`st.session_state`.  We embed each state-mutating block as a pure function of
the session state, the current wall-clock time, and oracles for the outcomes
of external calls (OAuth token exchange, vendor API responses).  Time is
modelled as `Int` (the code only compares differences of `time.time()` values
against the sync interval).  Python truthiness of the credential / client
objects is modelled by `Option.isSome`.  An uncaught Python exception is
modelled by a `raised` field carrying the exception message: when it is
`some`, the script aborted at that point and the `state` field holds exactly
the mutations made before the raise.
-/

/-- A normalized saved item as produced by the content fetchers
(`{title, url, extra}` where `extra` is the thumbnail URL for YouTube and the
subreddit name for Reddit). -/
structure SavedItem where
  title : String
  url : String
  extra : String
deriving DecidableEq, Repr

/-- The fields of `st.session_state` initialized and used by `Main.py`
(lines 15-30).  Credentials and client objects are opaque; we carry them as
`Option String`.  `oauth_state` is the anti-forgery token stored by
`youtube_login` (line 108); it starts absent (attribute not set). -/
structure SessionState where
  youtube_credentials : Option String
  reddit_access_token : Option String
  youtube_api : Option String
  reddit : Option String
  youtube_videos : List SavedItem
  reddit_posts : List SavedItem
  last_sync_time : Int
  sync_interval : Int
  oauth_state : Option String
deriving DecidableEq, Repr

/-- Session state after the initialization block (lines 15-30):
no credentials, empty item lists, `last_sync_time = 0`, 60-second interval,
and no `oauth_state` attribute yet. -/
def initial_session : SessionState where
  youtube_credentials := none
  reddit_access_token := none
  youtube_api := none
  reddit := none
  youtube_videos := []
  reddit_posts := []
  last_sync_time := 0
  sync_interval := 60
  oauth_state := none

/-- The OAuth redirect query parameters the code inspects
(`st.query_params`): the authorization `code` and the anti-forgery `state`. -/
structure QueryParams where
  code : Option String
  state : Option String
deriving DecidableEq, Repr

/-- `st.query_params.clear()` (lines 133 and 149). -/
def QueryParams.cleared : QueryParams where
  code := none
  state := none

/-- Models a Python `dict[key]` / attribute access whose value may be absent:
absence raises `KeyError` naming the key. -/
def dictGet {α : Type} (o : Option α) (key : String) : Except String α :=
  match o with
  | some v => Except.ok v
  | none => Except.error ("KeyError: " ++ "'" ++ key ++ "'")

/-- One item of the YouTube videos-list response, with each consumed field
possibly absent so that an unexpected payload shape can be expressed.
`thumbnail_default_url` stands for the chain
`item["snippet"]["thumbnails"]["default"]["url"]`. -/
structure YTSnippet where
  title : Option String
  thumbnail_default_url : Option String
deriving DecidableEq, Repr

/-- A raw YouTube response item: the `snippet` sub-dict and the `id` field,
each possibly absent. -/
structure YTRawItem where
  snippet : Option YTSnippet
  id : Option String
deriving DecidableEq, Repr

/-- Oracle for the outcome of `youtube_api.videos().list(...).execute()`
(line 69): either a response whose `items` list is given, or an
`HttpError` raised by the client library. -/
inductive YTApiResult where
  | ok (items : List YTRawItem)
  | httpError (msg : String)
deriving DecidableEq, Repr

/-- Oracle for the outcome of iterating `reddit.user.me().saved(limit=10)`
(line 85): either the list of raw items or an exception. -/
structure RedditRawItem where
  title : Option String
  permalink : String
  subreddit_display_name : String
deriving DecidableEq, Repr

/-- Reddit saved-items call outcome: items, or any raised exception. -/
inductive RedditApiResult where
  | ok (items : List RedditRawItem)
  | exn (msg : String)
deriving DecidableEq, Repr

/-- `fetch_youtube_saved_videos` (lines 62-79).  The `try` block catches only
`googleapiclient.errors.HttpError`: on that, `st.error` is shown and `[]`
returned.  Any other exception — in particular a `KeyError` from an
unexpected payload shape while building the item dicts — propagates uncaught,
which we model as `Except.error`.  On success the pair is
(videos, error messages shown). -/
def fetch_youtube_saved_videos (api : YTApiResult) :
    Except String (List SavedItem × List String) :=
  match api with
  | YTApiResult.httpError e =>
      Except.ok ([], ["Error fetching YouTube videos: " ++ e])
  | YTApiResult.ok items => do
      let videos ← items.mapM (fun item => do
        let sn ← dictGet item.snippet "snippet"
        let t ← dictGet sn.title "title"
        let i ← dictGet item.id "id"
        let th ← dictGet sn.thumbnail_default_url "thumbnails"
        Except.ok (SavedItem.mk t ("https://www.youtube.com/watch?v=" ++ i) th))
      Except.ok (videos, [])

/-- `fetch_reddit_saved_posts` (lines 81-95).  The `try` catches every
exception (`except Exception`), so this function is total: on an exception an
error message is shown and `[]` returned.  Items without a `title` attribute
(comments) are silently skipped. -/
def fetch_reddit_saved_posts (api : RedditApiResult) :
    List SavedItem × List String :=
  match api with
  | RedditApiResult.exn e => ([], ["Error fetching Reddit posts: " ++ e])
  | RedditApiResult.ok items =>
      (items.filterMap (fun item =>
        item.title.map (fun t =>
          SavedItem.mk t item.permalink item.subreddit_display_name)), [])

/-- Result of one `sync_content` evaluation: the session state afterwards,
the `st.error` messages shown, an uncaught exception if one propagated, and
instrumentation flags recording whether the YouTube / Reddit fetch-and-replace
completed in this evaluation. -/
structure SyncOutcome where
  state : SessionState
  errors : List String
  raised : Option String
  fetchedYT : Bool
  fetchedReddit : Bool
deriving DecidableEq, Repr

/-- The tail of `sync_content` after the YouTube branch (lines 161-163):
the Reddit fetch when `st.session_state.reddit` is truthy, then
`last_sync_time = current_time`. -/
def sync_content_aux (s : SessionState) (errs1 : List String) (f1 : Bool)
    (now : Int) (rd : RedditApiResult) : SyncOutcome :=
  if s.reddit.isSome then
    let pr := fetch_reddit_saved_posts rd
    { state := { s with reddit_posts := pr.1, last_sync_time := now }
      errors := errs1 ++ pr.2
      raised := none
      fetchedYT := f1
      fetchedReddit := true }
  else
    { state := { s with last_sync_time := now }
      errors := errs1
      raised := none
      fetchedYT := f1
      fetchedReddit := false }

/-- `sync_content` (lines 155-163).  If `current_time - last_sync_time >=
sync_interval`, fetch YouTube when `youtube_api` is truthy, fetch Reddit when
`reddit` is truthy, then advance `last_sync_time`; otherwise do nothing.  If
the YouTube fetch raises an uncaught exception, no assignment has happened
yet, so the state is unchanged and the Reddit fetch and timestamp update are
skipped. -/
def sync_content (s : SessionState) (now : Int) (yt : YTApiResult)
    (rd : RedditApiResult) : SyncOutcome :=
  if s.sync_interval ≤ now - s.last_sync_time then
    if s.youtube_api.isSome then
      match fetch_youtube_saved_videos yt with
      | Except.error e =>
          { state := s, errors := [], raised := some e
            fetchedYT := false, fetchedReddit := false }
      | Except.ok vr =>
          sync_content_aux { s with youtube_videos := vr.1 } vr.2 true now rd
    else
      sync_content_aux s [] false now rd
  else
    { state := s, errors := [], raised := none
      fetchedYT := false, fetchedReddit := false }

/-- `get_youtube_api` (lines 56-60): builds the API client from the
credentials; opaque, modelled as carrying the credential through. -/
def get_youtube_api (credentials : String) : String := credentials

/-- Oracle for `flow.fetch_token(code=...)` (line 130) /
`reddit.auth.authorize(code)` (line 147): a credential, or an exception. -/
inductive TokenExchangeResult where
  | ok (cred : String)
  | failure (msg : String)
deriving DecidableEq, Repr

/-- Result of running one callback handler: session state, remaining query
parameters, `st.error` messages, an uncaught exception if any, whether
`st.rerun()` was requested, and the sync instrumentation flags (false when
the handler did not reach `sync_content`). -/
structure CallbackOutcome where
  state : SessionState
  queryParams : QueryParams
  errors : List String
  raised : Option String
  rerun : Bool
  fetchedYT : Bool
  fetchedReddit : Bool
deriving DecidableEq, Repr

/-- A handler pass that touches nothing. -/
def CallbackOutcome.noop (s : SessionState) (qp : QueryParams) :
    CallbackOutcome where
  state := s
  queryParams := qp
  errors := []
  raised := none
  rerun := false
  fetchedYT := false
  fetchedReddit := false

/-- `handle_youtube_callback` (lines 125-135).  Requires both `code` and
`state` in the query parameters.  Reads `st.session_state.oauth_state`
(AttributeError if never set).  On a state match it exchanges the code —
`fetch_token` has no surrounding `try`, so an exchange failure propagates
uncaught — stores credentials and the API client, clears the query
parameters, runs `sync_content`, and calls `st.rerun()`.  On a state
mismatch it silently does nothing. -/
def handle_youtube_callback (s : SessionState) (qp : QueryParams) (now : Int)
    (exch : TokenExchangeResult) (yt : YTApiResult) (rd : RedditApiResult) :
    CallbackOutcome :=
  match qp.code, qp.state with
  | some _, some stv =>
    match s.oauth_state with
    | none =>
        { CallbackOutcome.noop s qp with
          raised := some "AttributeError: st.session_state has no attribute oauth_state" }
    | some os =>
      if stv = os then
        match exch with
        | TokenExchangeResult.failure e =>
            { CallbackOutcome.noop s qp with raised := some e }
        | TokenExchangeResult.ok cred =>
          let s1 := { s with youtube_credentials := some cred
                             youtube_api := some (get_youtube_api cred) }
          let out := sync_content s1 now yt rd
          { state := out.state
            queryParams := QueryParams.cleared
            errors := out.errors
            raised := out.raised
            rerun := out.raised.isNone
            fetchedYT := out.fetchedYT
            fetchedReddit := out.fetchedReddit }
      else CallbackOutcome.noop s qp
  | _, _ => CallbackOutcome.noop s qp

/-- `handle_reddit_callback` (lines 137-153).  Requires `code` in the query
parameters.  The whole body sits in `try ... except Exception`, so an
authorize failure — or an exception propagating out of the nested
`sync_content` call — is caught and shown as "Reddit login failed: ...";
mutations made before the raise (the stored `reddit` client, the cleared
query parameters) persist.  On success it stores the client, clears the
query parameters, syncs, and requests a rerun. -/
def handle_reddit_callback (s : SessionState) (qp : QueryParams) (now : Int)
    (auth : TokenExchangeResult) (yt : YTApiResult) (rd : RedditApiResult) :
    CallbackOutcome :=
  match qp.code with
  | none => CallbackOutcome.noop s qp
  | some _ =>
    match auth with
    | TokenExchangeResult.failure e =>
        { CallbackOutcome.noop s qp with
          errors := ["Reddit login failed: " ++ e] }
    | TokenExchangeResult.ok client =>
      let s1 := { s with reddit := some client }
      let out := sync_content s1 now yt rd
      match out.raised with
      | some e =>
          { state := out.state
            queryParams := QueryParams.cleared
            errors := out.errors ++ ["Reddit login failed: " ++ e]
            raised := none
            rerun := false
            fetchedYT := out.fetchedYT
            fetchedReddit := out.fetchedReddit }
      | none =>
          { state := out.state
            queryParams := QueryParams.cleared
            errors := out.errors
            raised := none
            rerun := true
            fetchedYT := out.fetchedYT
            fetchedReddit := out.fetchedReddit }

/-- `youtube_login` (lines 97-112): its session-state effect is storing the
generated anti-forgery token in `oauth_state` (and the flow object, which we
do not track separately — the exchange outcome oracle stands for it). -/
def youtube_login (s : SessionState) (state_token : String) : SessionState :=
  { s with oauth_state := some state_token }

/-- The "Sync Now" button handler (lines 208-211): zero `last_sync_time`,
then run `sync_content` (the `st.rerun()` after it is a redraw signal). -/
def sync_now (s : SessionState) (now : Int) (yt : YTApiResult)
    (rd : RedditApiResult) : SyncOutcome :=
  sync_content { s with last_sync_time := 0 } now yt rd

/-- The "Logout YouTube" button handler (lines 215-219). -/
def logout_youtube (s : SessionState) : SessionState :=
  { s with youtube_credentials := none
           youtube_api := none
           youtube_videos := [] }

/-- The "Logout Reddit" button handler (lines 220-223). -/
def logout_reddit (s : SessionState) : SessionState :=
  { s with reddit := none
           reddit_posts := [] }

/-- The end-of-script auto-sync check (lines 225-227): request
`st.experimental_rerun()` exactly when some provider is authenticated and
the elapsed time since `last_sync_time` has reached `sync_interval`. -/
def auto_sync_rerun (s : SessionState) (now : Int) : Bool :=
  (s.youtube_credentials.isSome || s.reddit.isSome) &&
    decide (s.sync_interval ≤ now - s.last_sync_time)

/-- The `[youtube]` section of `secrets.toml`, fields possibly absent. -/
structure YoutubeSecrets where
  client_secret_json : Option String
deriving DecidableEq, Repr

/-- The `[reddit]` section of `secrets.toml`, fields possibly absent. -/
structure RedditSecrets where
  client_id : Option String
  client_secret : Option String
  user_agent : Option String
deriving DecidableEq, Repr

/-- The configuration source (`st.secrets`): each section possibly absent. -/
structure Secrets where
  youtube : Option YoutubeSecrets
  reddit : Option RedditSecrets
deriving DecidableEq, Repr

/-- The four configuration values bound at lines 42-45 when loading
succeeds. -/
structure Config where
  YOUTUBE_CLIENT_SECRET_JSON : String
  REDDIT_CLIENT_ID : String
  REDDIT_CLIENT_SECRET : String
  REDDIT_USER_AGENT : String
deriving DecidableEq, Repr

/-- A nested `dict[key]` lookup that on absence raises `KeyError(key)`; the
error value is the key the exception carries (its sole argument). -/
def secretLookup {α : Type} (o : Option α) (key : String) : Except String α :=
  match o with
  | some v => Except.ok v
  | none => Except.error key

/-- The secrets-loading `try` block (lines 41-45), evaluated in program
order; the first absent key raises `KeyError` carrying that key's name.
Note the exception from `st.secrets["reddit"]["client_secret"]` carries only
the inner key `client_secret`, not the section name. -/
def load_secrets (sec : Secrets) : Except String Config := do
  let ys ← secretLookup sec.youtube "youtube"
  let ycs ← secretLookup ys.client_secret_json "client_secret_json"
  let rs ← secretLookup sec.reddit "reddit"
  let cid ← secretLookup rs.client_id "client_id"
  let csec ← secretLookup rs.client_secret "client_secret"
  let ua ← secretLookup rs.user_agent "user_agent"
  Except.ok (Config.mk ycs cid csec ua)

/-- The startup error shown by line 47 when loading fails: the f-string
interpolates `str(KeyError(key))`, which is the key in single quotes. -/
def startup_error_message (sec : Secrets) : Option String :=
  match load_secrets sec with
  | Except.ok _ => none
  | Except.error k =>
      some ("Missing secret: " ++ "'" ++ k ++ "'" ++
        ". Please configure secrets.toml with YouTube and Reddit credentials.")

/-- Whether startup proceeds past `st.stop()` (line 48) to render the UI
(title, tabs, sidebar). -/
def app_renders_ui (sec : Secrets) : Bool :=
  (load_secrets sec).isOk

/-- Whether a character list starts with the given needle. -/
def charsStart : List Char → List Char → Bool
  | [], _ => true
  | _ :: _, [] => false
  | a :: as, b :: bs => a = b && charsStart as bs

/-- Whether the needle occurs anywhere in the haystack. -/
def charsContain (needle : List Char) : List Char → Bool
  | [] => charsStart needle []
  | b :: t => charsStart needle (b :: t) || charsContain needle t

/-- Substring test used to state what an error message "names":
true iff `sub` occurs inside `hay`. -/
def strContains (hay sub : String) : Bool :=
  charsContain sub.data hay.data

/-- One session-state transition of the app: each constructor is one of the
state-mutating blocks a render pass can execute, with the external inputs
(query parameters, clock, oracles) chosen arbitrarily.  Logout transitions
carry the gate under which their button is rendered (lines 215, 220). -/
inductive Step : SessionState → SessionState → Prop where
  | login_yt (s : SessionState) (tok : String) :
      Step s (youtube_login s tok)
  | yt_callback (s : SessionState) (qp : QueryParams) (now : Int)
      (exch : TokenExchangeResult) (yt : YTApiResult) (rd : RedditApiResult) :
      Step s (handle_youtube_callback s qp now exch yt rd).state
  | rd_callback (s : SessionState) (qp : QueryParams) (now : Int)
      (auth : TokenExchangeResult) (yt : YTApiResult) (rd : RedditApiResult) :
      Step s (handle_reddit_callback s qp now auth yt rd).state
  | scheduler (s : SessionState) (now : Int) (yt : YTApiResult)
      (rd : RedditApiResult) :
      Step s (sync_content s now yt rd).state
  | sync_now_button (s : SessionState) (now : Int) (yt : YTApiResult)
      (rd : RedditApiResult) :
      Step s (sync_now s now yt rd).state
  | logout_yt (s : SessionState) :
      s.youtube_credentials.isSome → Step s (logout_youtube s)
  | logout_rd (s : SessionState) :
      s.reddit.isSome → Step s (logout_reddit s)

/-- Session states reachable from the initialized state by app operations. -/
inductive Reachable : SessionState → Prop where
  | init : Reachable initial_session
  | step {s s' : SessionState} : Reachable s → Step s s' → Reachable s'

/-- The data-model invariant: a provider's item list is non-empty only if
its credential is present, and the YouTube API client exists exactly when
the YouTube credentials do (they are set and cleared together). -/
def SessionInv (s : SessionState) : Prop :=
  (s.youtube_videos ≠ [] → s.youtube_credentials.isSome) ∧
  (s.reddit_posts ≠ [] → s.reddit.isSome) ∧
  s.youtube_api.isSome = s.youtube_credentials.isSome

/-! ## Basic facts about one scheduler evaluation -/

@[simp]
theorem sync_content_aux_raised (s : SessionState) (e : List String) (f : Bool)
    (now : Int) (rd : RedditApiResult) :
    (sync_content_aux s e f now rd).raised = none := by
  unfold sync_content_aux; split <;> rfl

@[simp]
theorem sync_content_aux_last (s : SessionState) (e : List String) (f : Bool)
    (now : Int) (rd : RedditApiResult) :
    (sync_content_aux s e f now rd).state.last_sync_time = now := by
  unfold sync_content_aux; split <;> rfl

@[simp]
theorem sync_content_aux_interval (s : SessionState) (e : List String) (f : Bool)
    (now : Int) (rd : RedditApiResult) :
    (sync_content_aux s e f now rd).state.sync_interval = s.sync_interval := by
  unfold sync_content_aux; split <;> rfl

@[simp]
theorem sync_content_aux_fetchedYT (s : SessionState) (e : List String) (f : Bool)
    (now : Int) (rd : RedditApiResult) :
    (sync_content_aux s e f now rd).fetchedYT = f := by
  unfold sync_content_aux; split <;> rfl

@[simp]
theorem sync_content_aux_fetchedReddit (s : SessionState) (e : List String) (f : Bool)
    (now : Int) (rd : RedditApiResult) :
    (sync_content_aux s e f now rd).fetchedReddit = s.reddit.isSome := by
  unfold sync_content_aux; split <;> simp_all

@[simp]
theorem sync_content_aux_creds (s : SessionState) (e : List String) (f : Bool)
    (now : Int) (rd : RedditApiResult) :
    (sync_content_aux s e f now rd).state.youtube_credentials = s.youtube_credentials := by
  unfold sync_content_aux; split <;> rfl

@[simp]
theorem sync_content_aux_api (s : SessionState) (e : List String) (f : Bool)
    (now : Int) (rd : RedditApiResult) :
    (sync_content_aux s e f now rd).state.youtube_api = s.youtube_api := by
  unfold sync_content_aux; split <;> rfl

@[simp]
theorem sync_content_aux_reddit (s : SessionState) (e : List String) (f : Bool)
    (now : Int) (rd : RedditApiResult) :
    (sync_content_aux s e f now rd).state.reddit = s.reddit := by
  unfold sync_content_aux; split <;> rfl

@[simp]
theorem sync_content_aux_videos (s : SessionState) (e : List String) (f : Bool)
    (now : Int) (rd : RedditApiResult) :
    (sync_content_aux s e f now rd).state.youtube_videos = s.youtube_videos := by
  unfold sync_content_aux; split <;> rfl

/-- The Reddit branch of the scheduler: posts are replaced exactly when the
`reddit` client is present. -/
theorem sync_content_aux_posts (s : SessionState) (e : List String) (f : Bool)
    (now : Int) (rd : RedditApiResult) :
    (sync_content_aux s e f now rd).state.reddit_posts =
      (if s.reddit.isSome then (fetch_reddit_saved_posts rd).1 else s.reddit_posts) := by
  unfold sync_content_aux; split <;> simp_all

/-- A Fresh evaluation (elapsed time below the interval) is a no-op. -/
theorem sync_content_fresh (s : SessionState) (now : Int) (yt : YTApiResult)
    (rd : RedditApiResult)
    (h : ¬ (s.sync_interval ≤ now - s.last_sync_time)) :
    sync_content s now yt rd =
      { state := s, errors := [], raised := none
        fetchedYT := false, fetchedReddit := false } := by
  unfold sync_content; rw [if_neg h]

/-- The scheduler never changes the configured interval. -/
theorem sync_content_interval (s : SessionState) (now : Int) (yt : YTApiResult)
    (rd : RedditApiResult) :
    (sync_content s now yt rd).state.sync_interval = s.sync_interval := by
  unfold sync_content
  split
  · split
    · split <;> simp
    · simp
  · rfl

/-- The scheduler never changes the stored credentials or clients. -/
theorem sync_content_auth_fields (s : SessionState) (now : Int) (yt : YTApiResult)
    (rd : RedditApiResult) :
    (sync_content s now yt rd).state.youtube_credentials = s.youtube_credentials ∧
    (sync_content s now yt rd).state.youtube_api = s.youtube_api ∧
    (sync_content s now yt rd).state.reddit = s.reddit := by
  unfold sync_content
  split
  · split
    · split <;> simp
    · simp
  · exact ⟨rfl, rfl, rfl⟩

/-- A completed YouTube fetch-and-replace advances `last_sync_time` to the
evaluation time. -/
theorem sync_content_fetchedYT_last (s : SessionState) (now : Int)
    (yt : YTApiResult) (rd : RedditApiResult)
    (h : (sync_content s now yt rd).fetchedYT = true) :
    (sync_content s now yt rd).state.last_sync_time = now := by
  unfold sync_content at *
  split at h
  · split at h
    · split at h
      · simp_all
      · simp_all
    · simp_all
  · simp_all

/-- A completed Reddit fetch-and-replace advances `last_sync_time` to the
evaluation time. -/
theorem sync_content_fetchedReddit_last (s : SessionState) (now : Int)
    (yt : YTApiResult) (rd : RedditApiResult)
    (h : (sync_content s now yt rd).fetchedReddit = true) :
    (sync_content s now yt rd).state.last_sync_time = now := by
  unfold sync_content at *
  split at h
  · split at h
    · split at h
      · simp_all
      · simp_all
    · simp_all
  · simp_all

/-- A completed evaluation (no uncaught exception) leaves the state Fresh as
of the evaluation instant: either nothing changed and the state was already
Fresh, or `last_sync_time` was set to the evaluation time. -/
theorem sync_content_completed_fresh (s : SessionState) (now : Int)
    (yt : YTApiResult) (rd : RedditApiResult)
    (h : (sync_content s now yt rd).raised = none) :
    (sync_content s now yt rd).state.last_sync_time = now ∨
    (¬ (s.sync_interval ≤ now - s.last_sync_time) ∧
      (sync_content s now yt rd).state = s) := by
  revert h
  unfold sync_content
  split
  · split
    · split
      · intro h; simp_all
      · intro _; left; simp
    · intro _; left; simp
  · intro _; right; exact ⟨by assumption, rfl⟩

/-! ## The data-model invariant is preserved by every operation -/

/-- The Reddit tail of the scheduler preserves the invariant. -/
theorem sync_content_aux_inv (s : SessionState) (e : List String) (f : Bool)
    (now : Int) (rd : RedditApiResult) (h : SessionInv s) :
    SessionInv (sync_content_aux s e f now rd).state := by
  unfold sync_content_aux SessionInv at *
  split
  · exact ⟨h.1, fun _ => by simp_all, h.2.2⟩
  · exact h

/-- One scheduler evaluation preserves the invariant: the YouTube list is
replaced only behind the `youtube_api` gate, which coincides with the
credential, and the Reddit list only behind the `reddit` gate. -/
theorem sync_content_inv (s : SessionState) (now : Int) (yt : YTApiResult)
    (rd : RedditApiResult) (h : SessionInv s) :
    SessionInv (sync_content s now yt rd).state := by
  unfold sync_content
  split
  · split
    · split
      · exact h
      · refine sync_content_aux_inv _ _ _ _ _ ?_
        refine ⟨fun _ => ?_, h.2.1, h.2.2⟩
        have : s.youtube_api.isSome = true := by assumption
        simpa [← h.2.2] using this
    · exact sync_content_aux_inv _ _ _ _ _ h
  · exact h

/-- The YouTube callback handler preserves the invariant. -/
theorem handle_youtube_callback_inv (s : SessionState) (qp : QueryParams)
    (now : Int) (exch : TokenExchangeResult) (yt : YTApiResult)
    (rd : RedditApiResult) (h : SessionInv s) :
    SessionInv (handle_youtube_callback s qp now exch yt rd).state := by
  unfold handle_youtube_callback
  split
  · split
    · exact h
    · split
      · split
        · exact h
        · refine sync_content_inv _ _ _ _ ?_
          exact ⟨fun _ => rfl, h.2.1, rfl⟩
      · exact h
  · exact h

/-- The Reddit callback handler preserves the invariant. -/
theorem handle_reddit_callback_inv (s : SessionState) (qp : QueryParams)
    (now : Int) (auth : TokenExchangeResult) (yt : YTApiResult)
    (rd : RedditApiResult) (h : SessionInv s) :
    SessionInv (handle_reddit_callback s qp now auth yt rd).state := by
  unfold handle_reddit_callback
  split
  · exact h
  · split
    · exact h
    · rename_i client
      have h1 : SessionInv { s with reddit := some client } :=
        ⟨h.1, fun _ => rfl, h.2.2⟩
      dsimp only
      split <;> exact sync_content_inv _ _ _ _ h1

/-- Every app operation preserves the invariant. -/
theorem step_inv {s s' : SessionState} (h : SessionInv s) (st : Step s s') :
    SessionInv s' := by
  cases st with
  | login_yt tok => exact ⟨h.1, h.2.1, h.2.2⟩
  | yt_callback qp now exch yt rd => exact handle_youtube_callback_inv s qp now exch yt rd h
  | rd_callback qp now auth yt rd => exact handle_reddit_callback_inv s qp now auth yt rd h
  | scheduler now yt rd => exact sync_content_inv s now yt rd h
  | sync_now_button now yt rd =>
      exact sync_content_inv _ now yt rd ⟨h.1, h.2.1, h.2.2⟩
  | logout_yt hc => exact ⟨by simp [logout_youtube], h.2.1, by simp [logout_youtube]⟩
  | logout_rd hc => exact ⟨h.1, by simp [logout_reddit], h.2.2⟩

/-- Every reachable session state satisfies the invariant. -/
theorem reachable_inv {s : SessionState} (h : Reachable s) : SessionInv s := by
  induction h with
  | init => exact ⟨by simp [initial_session], by simp [initial_session], rfl⟩
  | step _ st ih => exact step_inv ih st

/-! ## Claims -/

/-- Claim C1: for every reachable session state and every provider, the
SavedItem list is non-empty only if that provider's credential is present;
the invariant is preserved by every operation (callback handling, scheduler
evaluation, manual sync, logout). -/
theorem C1_saved_items_require_credential :
    (∀ s s' : SessionState, SessionInv s → Step s s' → SessionInv s') ∧
    (∀ s : SessionState, Reachable s →
      (s.youtube_videos ≠ [] → s.youtube_credentials.isSome) ∧
      (s.reddit_posts ≠ [] → s.reddit.isSome)) :=
  ⟨fun _ _ h st => step_inv h st,
   fun _ h => ⟨(reachable_inv h).1, (reachable_inv h).2.1⟩⟩

/-- Witness for C1 at the initialized session state. -/
theorem C1_saved_items_require_credential_witness :
    (initial_session.youtube_videos ≠ [] →
      initial_session.youtube_credentials.isSome) ∧
    (initial_session.reddit_posts ≠ [] → initial_session.reddit.isSome) :=
  C1_saved_items_require_credential.2 initial_session Reachable.init

/-- Claim C2: after `logout(P)`, P's credential is `None` and P's SavedItem
list is empty, for all P and regardless of prior state.  (The YouTube button
handler, lines 215-219, clears `youtube_credentials`, `youtube_api` and
`youtube_videos`; the Reddit one, lines 220-223, clears `reddit` and
`reddit_posts`.) -/
theorem C2_logout_clears (s : SessionState) :
    (logout_youtube s).youtube_credentials = none ∧
    (logout_youtube s).youtube_videos = [] ∧
    (logout_youtube s).youtube_api = none ∧
    (logout_reddit s).reddit = none ∧
    (logout_reddit s).reddit_posts = [] :=
  ⟨rfl, rfl, rfl, rfl, rfl⟩

/-- Claim C10: a Stale scheduler evaluation advances `last_sync_time` to the
current time even when neither provider holds a credential and no fetch is
performed; hence the next evaluation within the interval performs no fetch
even if a credential was obtained in between. -/
theorem C10_timestamp_advances_without_credentials (s : SessionState)
    (t1 t2 : Int) (c : String) (yt1 yt2 : YTApiResult)
    (rd1 rd2 : RedditApiResult)
    (hapi : s.youtube_api = none) (hrd : s.reddit = none)
    (hstale : s.sync_interval ≤ t1 - s.last_sync_time)
    (hfresh : t2 - t1 < s.sync_interval) :
    (sync_content s t1 yt1 rd1).state.last_sync_time = t1 ∧
    (sync_content s t1 yt1 rd1).fetchedYT = false ∧
    (sync_content s t1 yt1 rd1).fetchedReddit = false ∧
    (sync_content
      { (sync_content s t1 yt1 rd1).state with
        youtube_credentials := some c
        youtube_api := some c
        reddit := some c } t2 yt2 rd2).fetchedYT = false ∧
    (sync_content
      { (sync_content s t1 yt1 rd1).state with
        youtube_credentials := some c
        youtube_api := some c
        reddit := some c } t2 yt2 rd2).fetchedReddit = false := by
  have h1 : sync_content s t1 yt1 rd1 =
      { state := { s with last_sync_time := t1 }, errors := []
        raised := none, fetchedYT := false, fetchedReddit := false } := by
    unfold sync_content sync_content_aux
    rw [if_pos hstale, hapi]
    simp [hrd]
  rw [h1]
  refine ⟨rfl, rfl, rfl, ?_⟩
  have h2 : ¬ (s.sync_interval ≤ t2 - t1) := by omega
  rw [sync_content_fresh _ _ _ _ (by simpa using h2)]
  exact ⟨rfl, rfl⟩

/-- Witness for C10: concretely, with no credentials, interval 60 and
`last_sync_time = 0`, an evaluation at t=100 advances the timestamp and a
second one at t=130 after a login fetches nothing. -/
theorem C10_timestamp_advances_without_credentials_witness :
    (sync_content initial_session 100 (YTApiResult.ok [])
        (RedditApiResult.ok [])).state.last_sync_time = 100 ∧
    (sync_content initial_session 100 (YTApiResult.ok [])
        (RedditApiResult.ok [])).fetchedYT = false ∧
    (sync_content initial_session 100 (YTApiResult.ok [])
        (RedditApiResult.ok [])).fetchedReddit = false ∧
    (sync_content
      { (sync_content initial_session 100 (YTApiResult.ok [])
          (RedditApiResult.ok [])).state with
        youtube_credentials := some "tok"
        youtube_api := some "tok"
        reddit := some "tok" } 130 (YTApiResult.ok [])
        (RedditApiResult.ok [])).fetchedYT = false ∧
    (sync_content
      { (sync_content initial_session 100 (YTApiResult.ok [])
          (RedditApiResult.ok [])).state with
        youtube_credentials := some "tok"
        youtube_api := some "tok"
        reddit := some "tok" } 130 (YTApiResult.ok [])
        (RedditApiResult.ok [])).fetchedReddit = false :=
  C10_timestamp_advances_without_credentials initial_session 100 130 "tok"
    (YTApiResult.ok []) (YTApiResult.ok []) (RedditApiResult.ok [])
    (RedditApiResult.ok []) rfl rfl (by decide) (by decide)

/-- Claim C5: two scheduler evaluations, the second within `sync_interval`
of the first, with no intervening force, complete at most one
fetch-and-replace per provider. -/
theorem C5_scheduler_idempotent (s : SessionState) (t1 t2 : Int)
    (yt1 yt2 : YTApiResult) (rd1 rd2 : RedditApiResult)
    (h : t2 - t1 < s.sync_interval) :
    ¬ ((sync_content s t1 yt1 rd1).fetchedYT = true ∧
       (sync_content (sync_content s t1 yt1 rd1).state t2 yt2 rd2).fetchedYT = true) ∧
    ¬ ((sync_content s t1 yt1 rd1).fetchedReddit = true ∧
       (sync_content (sync_content s t1 yt1 rd1).state t2 yt2 rd2).fetchedReddit = true) := by
  constructor
  · rintro ⟨h1, h2⟩
    have hl := sync_content_fetchedYT_last s t1 yt1 rd1 h1
    have hi := sync_content_interval s t1 yt1 rd1
    have hfresh : ¬ ((sync_content s t1 yt1 rd1).state.sync_interval ≤
        t2 - (sync_content s t1 yt1 rd1).state.last_sync_time) := by
      rw [hl, hi]; omega
    rw [sync_content_fresh _ _ _ _ hfresh] at h2
    exact Bool.false_ne_true h2
  · rintro ⟨h1, h2⟩
    have hl := sync_content_fetchedReddit_last s t1 yt1 rd1 h1
    have hi := sync_content_interval s t1 yt1 rd1
    have hfresh : ¬ ((sync_content s t1 yt1 rd1).state.sync_interval ≤
        t2 - (sync_content s t1 yt1 rd1).state.last_sync_time) := by
      rw [hl, hi]; omega
    rw [sync_content_fresh _ _ _ _ hfresh] at h2
    exact Bool.false_ne_true h2

/-- Witness for C5: a state with both providers live, an evaluation at t=100
that fetches, and a second at t=120 inside the 60-second interval. -/
theorem C5_scheduler_idempotent_witness :
    ¬ ((sync_content
          { initial_session with
            youtube_credentials := some "t", youtube_api := some "t"
            reddit := some "r" } 100 (YTApiResult.ok [])
          (RedditApiResult.ok [])).fetchedYT = true ∧
       (sync_content
          (sync_content
            { initial_session with
              youtube_credentials := some "t", youtube_api := some "t"
              reddit := some "r" } 100 (YTApiResult.ok [])
            (RedditApiResult.ok [])).state 120 (YTApiResult.ok [])
          (RedditApiResult.ok [])).fetchedYT = true) ∧
    ¬ ((sync_content
          { initial_session with
            youtube_credentials := some "t", youtube_api := some "t"
            reddit := some "r" } 100 (YTApiResult.ok [])
          (RedditApiResult.ok [])).fetchedReddit = true ∧
       (sync_content
          (sync_content
            { initial_session with
              youtube_credentials := some "t", youtube_api := some "t"
              reddit := some "r" } 100 (YTApiResult.ok [])
            (RedditApiResult.ok [])).state 120 (YTApiResult.ok [])
          (RedditApiResult.ok [])).fetchedReddit = true) :=
  C5_scheduler_idempotent
    { initial_session with
      youtube_credentials := some "t", youtube_api := some "t"
      reddit := some "r" } 100 120 (YTApiResult.ok []) (YTApiResult.ok [])
    (RedditApiResult.ok []) (RedditApiResult.ok []) (by decide)

/-- Claim C4 counterexample: both providers logged in, "Sync Now" zeroes the
timestamp, the wall clock (t=200) is well past the 60-second interval — yet
the Reddit provider, holding a live credential, gets no fetch: the YouTube
fetch raises a `KeyError` (an item without a `snippet` key, not an
`HttpError`), aborting the evaluation before the Reddit branch.  So the
forced evaluation does not fetch "for every provider with a live
Credential". -/
theorem C4_counterexample :
    (sync_now
      { initial_session with
        youtube_credentials := some "t", youtube_api := some "t"
        reddit := some "r" } 200
      (YTApiResult.ok [YTRawItem.mk none (some "i")])
      (RedditApiResult.ok [RedditRawItem.mk (some "P") "/r/x/1" "x"])).raised =
      some ("KeyError: " ++ "'" ++ "snippet" ++ "'") ∧
    (sync_now
      { initial_session with
        youtube_credentials := some "t", youtube_api := some "t"
        reddit := some "r" } 200
      (YTApiResult.ok [YTRawItem.mk none (some "i")])
      (RedditApiResult.ok [RedditRawItem.mk (some "P") "/r/x/1" "x"])).fetchedReddit =
      false ∧
    ({ initial_session with
        youtube_credentials := some "t", youtube_api := some "t"
        reddit := some "r" } : SessionState).reddit.isSome = true ∧
    ({ initial_session with
        youtube_credentials := some "t", youtube_api := some "t"
        reddit := some "r" } : SessionState).sync_interval ≤ 200 := by
  decide

/-- Claim C4 as amended: zeroing `last_sync_time` (the "Sync Now" control)
makes the very next scheduler evaluation enter the fetch pass, bypassing the
interval, and it fetches for every provider with a live credential provided
the evaluation completes without an uncaught exception (a YouTube
non-`HttpError` exception aborts the pass before the Reddit fetch).  The
wall clock is at least the interval (`time.time()` is far larger than 60)
and the state is reachable (so the `youtube_api` gate coincides with the
credential). -/
theorem C4_sync_now_forces_fetch (s : SessionState) (now : Int)
    (yt : YTApiResult) (rd : RedditApiResult)
    (hreach : Reachable s) (hnow : s.sync_interval ≤ now)
    (hok : (sync_now s now yt rd).raised = none) :
    (sync_now s now yt rd).fetchedYT = s.youtube_credentials.isSome ∧
    (sync_now s now yt rd).fetchedReddit = s.reddit.isSome := by
  have hgate := (reachable_inv hreach).2.2
  revert hok
  unfold sync_now sync_content
  rw [if_pos (show ({ s with last_sync_time := 0 } : SessionState).sync_interval ≤
    now - ({ s with last_sync_time := 0 } : SessionState).last_sync_time by simpa using hnow)]
  by_cases hapi : s.youtube_api.isSome = true
  · rw [if_pos hapi]
    split
    · intro hok; simp at hok
    · intro _
      constructor
      · simp [← hgate, hapi]
      · simp
  · rw [if_neg hapi]
    intro _
    have hfalse : s.youtube_api.isSome = false := by simpa using hapi
    constructor
    · simp only [sync_content_aux_fetchedYT]
      rw [← hgate, hfalse]
    · simp

/-- Witness for C4 at a reachable state with a YouTube credential, obtained
by the login link then a successful callback. -/
theorem C4_sync_now_forces_fetch_witness :
    (sync_now
      (handle_youtube_callback (youtube_login initial_session "x")
        { code := some "c", state := some "x" } 100
        (TokenExchangeResult.ok "tok") (YTApiResult.ok [])
        (RedditApiResult.ok [])).state 200 (YTApiResult.ok [])
      (RedditApiResult.ok [])).fetchedYT =
      (handle_youtube_callback (youtube_login initial_session "x")
        { code := some "c", state := some "x" } 100
        (TokenExchangeResult.ok "tok") (YTApiResult.ok [])
        (RedditApiResult.ok [])).state.youtube_credentials.isSome ∧
    (sync_now
      (handle_youtube_callback (youtube_login initial_session "x")
        { code := some "c", state := some "x" } 100
        (TokenExchangeResult.ok "tok") (YTApiResult.ok [])
        (RedditApiResult.ok [])).state 200 (YTApiResult.ok [])
      (RedditApiResult.ok [])).fetchedReddit =
      (handle_youtube_callback (youtube_login initial_session "x")
        { code := some "c", state := some "x" } 100
        (TokenExchangeResult.ok "tok") (YTApiResult.ok [])
        (RedditApiResult.ok [])).state.reddit.isSome :=
  C4_sync_now_forces_fetch _ 200 (YTApiResult.ok []) (RedditApiResult.ok [])
    (Reachable.step (Reachable.step Reachable.init
      (Step.login_yt initial_session "x"))
      (Step.yt_callback (youtube_login initial_session "x")
        { code := some "c", state := some "x" } 100
        (TokenExchangeResult.ok "tok") (YTApiResult.ok [])
        (RedditApiResult.ok [])))
    (by decide) (by decide)

/-- Claim C9 counterexample: a render pass with an authenticated provider
whose scheduler evaluation at t=159 is a no-op (elapsed 59 < 60) and whose
end-of-script check at t=161 (elapsed 61 ≥ 60) requests
`st.experimental_rerun()` — the program does initiate a re-execution on its
own, contradicting "no further re-execution occurs, regardless of elapsed
time". -/
theorem C9_counterexample :
    (sync_content
      { initial_session with
        youtube_credentials := some "t", youtube_api := some "t"
        last_sync_time := 100 } 159 (YTApiResult.ok [])
      (RedditApiResult.ok [])).state =
      { initial_session with
        youtube_credentials := some "t", youtube_api := some "t"
        last_sync_time := 100 } ∧
    (sync_content
      { initial_session with
        youtube_credentials := some "t", youtube_api := some "t"
        last_sync_time := 100 } 159 (YTApiResult.ok [])
      (RedditApiResult.ok [])).raised = none ∧
    auto_sync_rerun
      { initial_session with
        youtube_credentials := some "t", youtube_api := some "t"
        last_sync_time := 100 } 161 = true := by decide

/-- Claim C9 as amended: the end-of-script check (lines 225-227) does
initiate a re-execution on its own whenever a provider is authenticated and
the staleness threshold is crossed by the time it runs; it stays quiet only
when it is evaluated at the same instant as a completed scheduler
evaluation (with a positive interval), since that evaluation leaves the
state Fresh. -/
theorem C9_amended_self_rerun :
    (∀ (s : SessionState) (now : Int) (yt : YTApiResult) (rd : RedditApiResult),
      0 < s.sync_interval → (sync_content s now yt rd).raised = none →
      auto_sync_rerun (sync_content s now yt rd).state now = false) ∧
    (∃ (s : SessionState) (t1 t2 : Int) (yt : YTApiResult) (rd : RedditApiResult),
      (sync_content s t1 yt rd).raised = none ∧
      (sync_content s t1 yt rd).state = s ∧
      auto_sync_rerun (sync_content s t1 yt rd).state t2 = true) := by
  constructor
  · intro s now yt rd hpos hok
    rcases sync_content_completed_fresh s now yt rd hok with h | ⟨hfr, hst⟩
    · unfold auto_sync_rerun
      rw [h, sync_content_interval]
      simp only [Bool.and_eq_false_iff]
      right
      simpa using by omega
    · unfold auto_sync_rerun
      rw [hst]
      simp only [Bool.and_eq_false_iff]
      right
      simpa using hfr
  · exact ⟨{ initial_session with
        youtube_credentials := some "t", youtube_api := some "t"
        last_sync_time := 100 }, 159, 161, YTApiResult.ok [],
      RedditApiResult.ok [], by decide, by decide, by decide⟩

/-- Witness for C9's amended claim: the universally quantified part applied
at a concrete completed evaluation. -/
theorem C9_amended_self_rerun_witness :
    auto_sync_rerun
      (sync_content
        { initial_session with
          youtube_credentials := some "t", youtube_api := some "t"
          last_sync_time := 100 } 200 (YTApiResult.ok [])
        (RedditApiResult.ok [])).state 200 = false :=
  C9_amended_self_rerun.1
    { initial_session with
      youtube_credentials := some "t", youtube_api := some "t"
      last_sync_time := 100 } 200 (YTApiResult.ok []) (RedditApiResult.ok [])
    (by decide) (by decide)

deriving instance DecidableEq for Except

/-- On a present code, a present state matching the stored anti-forgery
token, and a successful exchange, the YouTube callback reduces to: store the
credential and API client, clear the query parameters, run `sync_content`,
and request a rerun unless the sync raised. -/
theorem handle_youtube_callback_ok (s : SessionState) (qp : QueryParams)
    (now : Int) (cred c v : String) (yt : YTApiResult) (rd : RedditApiResult)
    (hc : qp.code = some c) (hv : qp.state = some v)
    (hos : s.oauth_state = some v) :
    handle_youtube_callback s qp now (TokenExchangeResult.ok cred) yt rd =
      { state := (sync_content
          { s with youtube_credentials := some cred
                   youtube_api := some (get_youtube_api cred) } now yt rd).state
        queryParams := QueryParams.cleared
        errors := (sync_content
          { s with youtube_credentials := some cred
                   youtube_api := some (get_youtube_api cred) } now yt rd).errors
        raised := (sync_content
          { s with youtube_credentials := some cred
                   youtube_api := some (get_youtube_api cred) } now yt rd).raised
        rerun := (sync_content
          { s with youtube_credentials := some cred
                   youtube_api := some (get_youtube_api cred) } now yt rd).raised.isNone
        fetchedYT := (sync_content
          { s with youtube_credentials := some cred
                   youtube_api := some (get_youtube_api cred) } now yt rd).fetchedYT
        fetchedReddit := (sync_content
          { s with youtube_credentials := some cred
                   youtube_api := some (get_youtube_api cred) } now yt rd).fetchedReddit } := by
  unfold handle_youtube_callback
  rw [hc, hv, hos]
  dsimp only
  rw [if_pos rfl]

/-- On a present code, a successful authorize, and a nested `sync_content`
that does not raise, the Reddit callback reduces to: store the client, clear
the query parameters, run `sync_content`, and request a rerun. -/
theorem handle_reddit_callback_ok (s : SessionState) (qp : QueryParams)
    (now : Int) (client : String) (yt : YTApiResult) (rd : RedditApiResult)
    (c : String) (hc : qp.code = some c)
    (hok : (sync_content { s with reddit := some client } now yt rd).raised = none) :
    handle_reddit_callback s qp now (TokenExchangeResult.ok client) yt rd =
      { state := (sync_content { s with reddit := some client } now yt rd).state
        queryParams := QueryParams.cleared
        errors := (sync_content { s with reddit := some client } now yt rd).errors
        raised := none
        rerun := true
        fetchedYT := (sync_content { s with reddit := some client } now yt rd).fetchedYT
        fetchedReddit :=
          (sync_content { s with reddit := some client } now yt rd).fetchedReddit } := by
  unfold handle_reddit_callback
  rw [hc]
  dsimp only
  rw [hok]

/-- A Stale evaluation on a session whose `reddit` client is present, and
whose YouTube branch does not raise (either no `youtube_api`, or the fetch
returns), completes the Reddit fetch-and-replace: no uncaught exception, the
Reddit posts replaced by the fetch result, the timestamp advanced, the
YouTube fetch completed exactly when its gate is present, and every message
of the Reddit fetch shown. -/
theorem sync_content_stale_reddit (s : SessionState) (now : Int)
    (yt : YTApiResult) (rd : RedditApiResult) (vids : List SavedItem)
    (errs : List String)
    (hstale : s.sync_interval ≤ now - s.last_sync_time)
    (hrd : s.reddit.isSome = true)
    (hyt : s.youtube_api = none ∨
      fetch_youtube_saved_videos yt = Except.ok (vids, errs)) :
    (sync_content s now yt rd).raised = none ∧
    (sync_content s now yt rd).fetchedReddit = true ∧
    (sync_content s now yt rd).fetchedYT = s.youtube_api.isSome ∧
    (sync_content s now yt rd).state.reddit_posts =
      (fetch_reddit_saved_posts rd).1 ∧
    (sync_content s now yt rd).state.last_sync_time = now ∧
    (fetch_reddit_saved_posts rd).2 ⊆ (sync_content s now yt rd).errors := by
  by_cases hapi : s.youtube_api.isSome = true
  · have hfetch : fetch_youtube_saved_videos yt = Except.ok (vids, errs) := by
      rcases hyt with hnone | hf
      · rw [hnone] at hapi; simp at hapi
      · exact hf
    unfold sync_content
    rw [if_pos hstale, if_pos hapi, hfetch]
    dsimp only
    unfold sync_content_aux
    rw [if_pos (show (({ s with youtube_videos := vids } : SessionState)).reddit.isSome = true
      by simpa using hrd)]
    dsimp only
    refine ⟨rfl, rfl, by simp [hapi], rfl, rfl, ?_⟩
    intro m hm
    exact List.mem_append_right _ hm
  · have hfalse : s.youtube_api.isSome = false := by simpa using hapi
    unfold sync_content
    rw [if_pos hstale, if_neg hapi]
    unfold sync_content_aux
    rw [if_pos hrd]
    dsimp only
    refine ⟨rfl, rfl, by simp [hfalse], rfl, rfl, ?_⟩
    intro m hm
    simpa using hm

/-- A YouTube response with one well-shaped item. -/
def ytOneItem : YTApiResult :=
  YTApiResult.ok
    [YTRawItem.mk (some (YTSnippet.mk (some "T") (some "U"))) (some "i")]

/-- A session 30 seconds away from being Stale (interval 60, last sync at
t=100) that has generated a YouTube login link with token "x". -/
def sRecentSync : SessionState :=
  { initial_session with oauth_state := some "x", last_sync_time := 100 }

/-- Claim C3 counterexample: a YouTube callback with matching state and a
successful exchange at t=130, 30 seconds after the last sync with a
60-second interval.  The credential is stored and the query parameters
cleared, but the nested `sync_content` call is interval-gated: no fetch
completes and the video list stays empty even though a fresh fetch would
return one item — "regardless of how recently the last sync ran" is false. -/
theorem C3_counterexample :
    (handle_youtube_callback sRecentSync
      { code := some "c", state := some "x" } 130
      (TokenExchangeResult.ok "tok") ytOneItem
      (RedditApiResult.ok [])).state.youtube_credentials = some "tok" ∧
    (handle_youtube_callback sRecentSync
      { code := some "c", state := some "x" } 130
      (TokenExchangeResult.ok "tok") ytOneItem
      (RedditApiResult.ok [])).queryParams = QueryParams.cleared ∧
    (handle_youtube_callback sRecentSync
      { code := some "c", state := some "x" } 130
      (TokenExchangeResult.ok "tok") ytOneItem
      (RedditApiResult.ok [])).fetchedYT = false ∧
    (handle_youtube_callback sRecentSync
      { code := some "c", state := some "x" } 130
      (TokenExchangeResult.ok "tok") ytOneItem
      (RedditApiResult.ok [])).state.youtube_videos = [] ∧
    fetch_youtube_saved_videos ytOneItem =
      Except.ok ([SavedItem.mk "T" "https://www.youtube.com/watch?v=i" "U"], []) := by
  decide

/-- Claim C3 as amended: a successful OAuth callback, for either provider,
stores the credential, clears the redirect query parameters and runs a
sync-scheduler evaluation — but that evaluation fetches only when the sync
interval has already elapsed since `last_sync_time`.  YouTube: Stale
callbacks replace the list with the fresh fetch (first conjunct); within the
interval the callback stores the credential and clears the parameters yet
completes no fetch and leaves the list untouched (second conjunct).
Reddit: Stale callbacks replace the saved posts with the fresh fetch (third
conjunct); within the interval the client is stored and the parameters
cleared but no fetch completes and the posts are untouched (fourth
conjunct). -/
theorem C3_amended_callback_sync_gated :
    (∀ (s : SessionState) (qp : QueryParams) (now : Int)
       (cred c v : String) (yt : YTApiResult) (rd : RedditApiResult)
       (vids : List SavedItem) (errs : List String),
      qp.code = some c → qp.state = some v → s.oauth_state = some v →
      s.sync_interval ≤ now - s.last_sync_time →
      fetch_youtube_saved_videos yt = Except.ok (vids, errs) →
      (handle_youtube_callback s qp now (TokenExchangeResult.ok cred) yt
        rd).state.youtube_credentials = some cred ∧
      (handle_youtube_callback s qp now (TokenExchangeResult.ok cred) yt
        rd).queryParams = QueryParams.cleared ∧
      (handle_youtube_callback s qp now (TokenExchangeResult.ok cred) yt
        rd).fetchedYT = true ∧
      (handle_youtube_callback s qp now (TokenExchangeResult.ok cred) yt
        rd).state.youtube_videos = vids ∧
      (handle_youtube_callback s qp now (TokenExchangeResult.ok cred) yt
        rd).rerun = true) ∧
    (∀ (s : SessionState) (qp : QueryParams) (now : Int)
       (cred c v : String) (yt : YTApiResult) (rd : RedditApiResult),
      qp.code = some c → qp.state = some v → s.oauth_state = some v →
      ¬ (s.sync_interval ≤ now - s.last_sync_time) →
      (handle_youtube_callback s qp now (TokenExchangeResult.ok cred) yt
        rd).state.youtube_credentials = some cred ∧
      (handle_youtube_callback s qp now (TokenExchangeResult.ok cred) yt
        rd).queryParams = QueryParams.cleared ∧
      (handle_youtube_callback s qp now (TokenExchangeResult.ok cred) yt
        rd).fetchedYT = false ∧
      (handle_youtube_callback s qp now (TokenExchangeResult.ok cred) yt
        rd).state.youtube_videos = s.youtube_videos) ∧
    (∀ (s : SessionState) (qp : QueryParams) (now : Int)
       (client c : String) (yt : YTApiResult) (rd : RedditApiResult)
       (vids : List SavedItem) (errs : List String),
      qp.code = some c →
      s.sync_interval ≤ now - s.last_sync_time →
      (s.youtube_api = none ∨
        fetch_youtube_saved_videos yt = Except.ok (vids, errs)) →
      (handle_reddit_callback s qp now (TokenExchangeResult.ok client) yt
        rd).state.reddit = some client ∧
      (handle_reddit_callback s qp now (TokenExchangeResult.ok client) yt
        rd).queryParams = QueryParams.cleared ∧
      (handle_reddit_callback s qp now (TokenExchangeResult.ok client) yt
        rd).fetchedReddit = true ∧
      (handle_reddit_callback s qp now (TokenExchangeResult.ok client) yt
        rd).state.reddit_posts = (fetch_reddit_saved_posts rd).1 ∧
      (handle_reddit_callback s qp now (TokenExchangeResult.ok client) yt
        rd).rerun = true) ∧
    (∀ (s : SessionState) (qp : QueryParams) (now : Int)
       (client c : String) (yt : YTApiResult) (rd : RedditApiResult),
      qp.code = some c →
      ¬ (s.sync_interval ≤ now - s.last_sync_time) →
      (handle_reddit_callback s qp now (TokenExchangeResult.ok client) yt
        rd).state.reddit = some client ∧
      (handle_reddit_callback s qp now (TokenExchangeResult.ok client) yt
        rd).queryParams = QueryParams.cleared ∧
      (handle_reddit_callback s qp now (TokenExchangeResult.ok client) yt
        rd).fetchedReddit = false ∧
      (handle_reddit_callback s qp now (TokenExchangeResult.ok client) yt
        rd).state.reddit_posts = s.reddit_posts) := by
  refine ⟨?_, ?_, ?_, ?_⟩
  · intro s qp now cred c v yt rd vids errs hc hv hos hstale hfetch
    rw [handle_youtube_callback_ok s qp now cred c v yt rd hc hv hos]
    have hrun : sync_content
        { s with youtube_credentials := some cred
                 youtube_api := some (get_youtube_api cred) } now yt rd =
        sync_content_aux
          { s with youtube_credentials := some cred
                   youtube_api := some (get_youtube_api cred)
                   youtube_videos := vids } errs true now rd := by
      unfold sync_content
      rw [if_pos (by simpa using hstale)]
      rw [if_pos (by simp)]
      rw [hfetch]
    rw [hrun]
    refine ⟨by simp, rfl, by simp, by simp, by simp⟩
  · intro s qp now cred c v yt rd hc hv hos hfresh
    rw [handle_youtube_callback_ok s qp now cred c v yt rd hc hv hos]
    have hrun : sync_content
        { s with youtube_credentials := some cred
                 youtube_api := some (get_youtube_api cred) } now yt rd =
        { state := { s with youtube_credentials := some cred
                            youtube_api := some (get_youtube_api cred) }
          errors := [], raised := none
          fetchedYT := false, fetchedReddit := false } :=
      sync_content_fresh _ _ _ _ (by simpa using hfresh)
    rw [hrun]
    exact ⟨rfl, rfl, rfl, rfl⟩
  · intro s qp now client c yt rd vids errs hc hstale hyt
    have hcore := sync_content_stale_reddit { s with reddit := some client }
      now yt rd vids errs (by simpa using hstale) (by simp)
      (by simpa using hyt)
    rw [handle_reddit_callback_ok s qp now client yt rd c hc hcore.1]
    refine ⟨?_, rfl, hcore.2.1, hcore.2.2.2.1, rfl⟩
    rw [(sync_content_auth_fields _ now yt rd).2.2]
  · intro s qp now client c yt rd hc hfresh
    have hrun : sync_content { s with reddit := some client } now yt rd =
        { state := { s with reddit := some client }
          errors := [], raised := none
          fetchedYT := false, fetchedReddit := false } :=
      sync_content_fresh _ _ _ _ (by simpa using hfresh)
    rw [handle_reddit_callback_ok s qp now client yt rd c hc (by rw [hrun])]
    rw [hrun]
    exact ⟨rfl, rfl, rfl, rfl⟩

/-- Witness for C3's amended claim: all four conjuncts applied at concrete
callbacks (YouTube Stale at t=200 where the fetch completes, YouTube Fresh
at t=130 where it does not, Reddit Stale at t=100, Reddit Fresh at t=130). -/
theorem C3_amended_callback_sync_gated_witness :
    ((handle_youtube_callback sRecentSync
        { code := some "c", state := some "x" } 200
        (TokenExchangeResult.ok "tok") ytOneItem
        (RedditApiResult.ok [])).state.youtube_credentials = some "tok" ∧
     (handle_youtube_callback sRecentSync
        { code := some "c", state := some "x" } 200
        (TokenExchangeResult.ok "tok") ytOneItem
        (RedditApiResult.ok [])).queryParams = QueryParams.cleared ∧
     (handle_youtube_callback sRecentSync
        { code := some "c", state := some "x" } 200
        (TokenExchangeResult.ok "tok") ytOneItem
        (RedditApiResult.ok [])).fetchedYT = true ∧
     (handle_youtube_callback sRecentSync
        { code := some "c", state := some "x" } 200
        (TokenExchangeResult.ok "tok") ytOneItem
        (RedditApiResult.ok [])).state.youtube_videos =
       [SavedItem.mk "T" "https://www.youtube.com/watch?v=i" "U"] ∧
     (handle_youtube_callback sRecentSync
        { code := some "c", state := some "x" } 200
        (TokenExchangeResult.ok "tok") ytOneItem
        (RedditApiResult.ok [])).rerun = true) ∧
    ((handle_youtube_callback sRecentSync
        { code := some "c", state := some "x" } 130
        (TokenExchangeResult.ok "tok") ytOneItem
        (RedditApiResult.ok [])).state.youtube_credentials = some "tok" ∧
     (handle_youtube_callback sRecentSync
        { code := some "c", state := some "x" } 130
        (TokenExchangeResult.ok "tok") ytOneItem
        (RedditApiResult.ok [])).queryParams = QueryParams.cleared ∧
     (handle_youtube_callback sRecentSync
        { code := some "c", state := some "x" } 130
        (TokenExchangeResult.ok "tok") ytOneItem
        (RedditApiResult.ok [])).fetchedYT = false ∧
     (handle_youtube_callback sRecentSync
        { code := some "c", state := some "x" } 130
        (TokenExchangeResult.ok "tok") ytOneItem
        (RedditApiResult.ok [])).state.youtube_videos =
       sRecentSync.youtube_videos) ∧
    ((handle_reddit_callback initial_session
        { code := some "rc", state := none } 100
        (TokenExchangeResult.ok "r") (YTApiResult.ok [])
        (RedditApiResult.ok [RedditRawItem.mk (some "P") "/r/x/1" "x"])).state.reddit =
       some "r" ∧
     (handle_reddit_callback initial_session
        { code := some "rc", state := none } 100
        (TokenExchangeResult.ok "r") (YTApiResult.ok [])
        (RedditApiResult.ok [RedditRawItem.mk (some "P") "/r/x/1" "x"])).queryParams =
       QueryParams.cleared ∧
     (handle_reddit_callback initial_session
        { code := some "rc", state := none } 100
        (TokenExchangeResult.ok "r") (YTApiResult.ok [])
        (RedditApiResult.ok [RedditRawItem.mk (some "P") "/r/x/1" "x"])).fetchedReddit =
       true ∧
     (handle_reddit_callback initial_session
        { code := some "rc", state := none } 100
        (TokenExchangeResult.ok "r") (YTApiResult.ok [])
        (RedditApiResult.ok [RedditRawItem.mk (some "P") "/r/x/1" "x"])).state.reddit_posts =
       (fetch_reddit_saved_posts
         (RedditApiResult.ok [RedditRawItem.mk (some "P") "/r/x/1" "x"])).1 ∧
     (handle_reddit_callback initial_session
        { code := some "rc", state := none } 100
        (TokenExchangeResult.ok "r") (YTApiResult.ok [])
        (RedditApiResult.ok [RedditRawItem.mk (some "P") "/r/x/1" "x"])).rerun =
       true) ∧
    ((handle_reddit_callback sRecentSync
        { code := some "rc", state := none } 130
        (TokenExchangeResult.ok "r") ytOneItem
        (RedditApiResult.ok [])).state.reddit = some "r" ∧
     (handle_reddit_callback sRecentSync
        { code := some "rc", state := none } 130
        (TokenExchangeResult.ok "r") ytOneItem
        (RedditApiResult.ok [])).queryParams = QueryParams.cleared ∧
     (handle_reddit_callback sRecentSync
        { code := some "rc", state := none } 130
        (TokenExchangeResult.ok "r") ytOneItem
        (RedditApiResult.ok [])).fetchedReddit = false ∧
     (handle_reddit_callback sRecentSync
        { code := some "rc", state := none } 130
        (TokenExchangeResult.ok "r") ytOneItem
        (RedditApiResult.ok [])).state.reddit_posts =
       sRecentSync.reddit_posts) :=
  ⟨C3_amended_callback_sync_gated.1 sRecentSync
      { code := some "c", state := some "x" } 200 "tok" "c" "x" ytOneItem
      (RedditApiResult.ok [])
      [SavedItem.mk "T" "https://www.youtube.com/watch?v=i" "U"] []
      rfl rfl rfl (by decide) (by decide),
   C3_amended_callback_sync_gated.2.1 sRecentSync
      { code := some "c", state := some "x" } 130 "tok" "c" "x" ytOneItem
      (RedditApiResult.ok []) rfl rfl rfl (by decide),
   C3_amended_callback_sync_gated.2.2.1 initial_session
      { code := some "rc", state := none } 100 "r" "rc" (YTApiResult.ok [])
      (RedditApiResult.ok [RedditRawItem.mk (some "P") "/r/x/1" "x"]) [] []
      rfl (by decide) (Or.inl rfl),
   C3_amended_callback_sync_gated.2.2.2 sRecentSync
      { code := some "rc", state := none } 130 "r" "rc" ytOneItem
      (RedditApiResult.ok []) rfl (by decide)⟩

/-- Claim C6 counterexample: a YouTube callback whose `state` parameter "b"
does not match the stored token "a" produces no error message at all (the
mismatch branch is silent), and a matching callback whose token exchange
fails raises an uncaught exception (`fetch_token` has no `try`) instead of
an inline message — in both cases no credential is created, but the claimed
inline error is never surfaced for YouTube. -/
theorem C6_counterexample :
    ((handle_youtube_callback { initial_session with oauth_state := some "a" }
        { code := some "c", state := some "b" } 100
        (TokenExchangeResult.ok "tok") (YTApiResult.ok [])
        (RedditApiResult.ok [])).errors = [] ∧
     (handle_youtube_callback { initial_session with oauth_state := some "a" }
        { code := some "c", state := some "b" } 100
        (TokenExchangeResult.ok "tok") (YTApiResult.ok [])
        (RedditApiResult.ok [])).state.youtube_credentials = none ∧
     (handle_youtube_callback { initial_session with oauth_state := some "a" }
        { code := some "c", state := some "b" } 100
        (TokenExchangeResult.ok "tok") (YTApiResult.ok [])
        (RedditApiResult.ok [])).raised = none) ∧
    ((handle_youtube_callback { initial_session with oauth_state := some "a" }
        { code := some "c", state := some "a" } 100
        (TokenExchangeResult.failure "invalid_grant") (YTApiResult.ok [])
        (RedditApiResult.ok [])).errors = [] ∧
     (handle_youtube_callback { initial_session with oauth_state := some "a" }
        { code := some "c", state := some "a" } 100
        (TokenExchangeResult.failure "invalid_grant") (YTApiResult.ok [])
        (RedditApiResult.ok [])).raised = some "invalid_grant" ∧
     (handle_youtube_callback { initial_session with oauth_state := some "a" }
        { code := some "c", state := some "a" } 100
        (TokenExchangeResult.failure "invalid_grant") (YTApiResult.ok [])
        (RedditApiResult.ok [])).state.youtube_credentials = none) := by
  decide

/-- Claim C6 as amended: only the Reddit handler surfaces an exchange
failure as an inline message ("Reddit login failed: ...") while leaving the
state unauthenticated.  The YouTube handler leaves the state unauthenticated
in both failure modes, but silently (a state mismatch is a plain no-op, with
no message) or by letting the exchange exception propagate uncaught. -/
theorem C6_amended_error_surfacing :
    (∀ (s : SessionState) (qp : QueryParams) (now : Int)
       (exch : TokenExchangeResult) (yt : YTApiResult) (rd : RedditApiResult)
       (c v os : String),
      qp.code = some c → qp.state = some v → s.oauth_state = some os →
      v ≠ os →
      handle_youtube_callback s qp now exch yt rd =
        CallbackOutcome.noop s qp) ∧
    (∀ (s : SessionState) (qp : QueryParams) (now : Int) (e : String)
       (yt : YTApiResult) (rd : RedditApiResult) (c v : String),
      qp.code = some c → qp.state = some v → s.oauth_state = some v →
      handle_youtube_callback s qp now (TokenExchangeResult.failure e) yt rd =
        { CallbackOutcome.noop s qp with raised := some e }) ∧
    (∀ (s : SessionState) (qp : QueryParams) (now : Int) (e : String)
       (yt : YTApiResult) (rd : RedditApiResult) (c : String),
      qp.code = some c →
      handle_reddit_callback s qp now (TokenExchangeResult.failure e) yt rd =
        { CallbackOutcome.noop s qp with
          errors := ["Reddit login failed: " ++ e] }) := by
  refine ⟨?_, ?_, ?_⟩
  · intro s qp now exch yt rd c v os hc hv hos hne
    unfold handle_youtube_callback
    rw [hc, hv, hos]
    dsimp only
    rw [if_neg hne]
  · intro s qp now e yt rd c v hc hv hos
    unfold handle_youtube_callback
    rw [hc, hv, hos]
    dsimp only
    rw [if_pos rfl]
  · intro s qp now e yt rd c hc
    unfold handle_reddit_callback
    rw [hc]

/-- Witness for C6's amended claim: all three conjuncts applied at concrete
callbacks. -/
theorem C6_amended_error_surfacing_witness :
    (handle_youtube_callback { initial_session with oauth_state := some "a" }
        { code := some "c", state := some "b" } 100
        (TokenExchangeResult.ok "tok") (YTApiResult.ok [])
        (RedditApiResult.ok []) =
      CallbackOutcome.noop { initial_session with oauth_state := some "a" }
        { code := some "c", state := some "b" }) ∧
    (handle_youtube_callback { initial_session with oauth_state := some "a" }
        { code := some "c", state := some "a" } 100
        (TokenExchangeResult.failure "invalid_grant") (YTApiResult.ok [])
        (RedditApiResult.ok []) =
      { CallbackOutcome.noop { initial_session with oauth_state := some "a" }
          { code := some "c", state := some "a" } with
        raised := some "invalid_grant" }) ∧
    (handle_reddit_callback initial_session { code := some "c", state := none }
        100 (TokenExchangeResult.failure "boom") (YTApiResult.ok [])
        (RedditApiResult.ok []) =
      { CallbackOutcome.noop initial_session
          { code := some "c", state := none } with
        errors := ["Reddit login failed: " ++ "boom"] }) :=
  ⟨C6_amended_error_surfacing.1 { initial_session with oauth_state := some "a" }
      { code := some "c", state := some "b" } 100 (TokenExchangeResult.ok "tok")
      (YTApiResult.ok []) (RedditApiResult.ok []) "c" "b" "a" rfl rfl rfl
      (by decide),
   C6_amended_error_surfacing.2.1
      { initial_session with oauth_state := some "a" }
      { code := some "c", state := some "a" } 100 "invalid_grant"
      (YTApiResult.ok []) (RedditApiResult.ok []) "c" "a" rfl rfl rfl,
   C6_amended_error_surfacing.2.2 initial_session
      { code := some "c", state := none } 100 "boom" (YTApiResult.ok [])
      (RedditApiResult.ok []) "c" rfl⟩

/-- Claim C7 counterexample: a Stale evaluation with both providers live in
which the YouTube response has an item without a `snippet` key.  The
resulting `KeyError` is not an `HttpError`, so it escapes the fetcher's
`except` clause and aborts `sync_content`: no inline message is shown, the
Reddit fetch is never reached, and `last_sync_time` does not advance —
contradicting the claim for "any exception". -/
theorem C7_counterexample :
    (sync_content
      { initial_session with
        youtube_credentials := some "t", youtube_api := some "t"
        reddit := some "r" } 100
      (YTApiResult.ok [YTRawItem.mk none (some "i")])
      (RedditApiResult.ok [RedditRawItem.mk (some "P") "/r/x/1" "x"])).raised =
      some ("KeyError: " ++ "'" ++ "snippet" ++ "'") ∧
    (sync_content
      { initial_session with
        youtube_credentials := some "t", youtube_api := some "t"
        reddit := some "r" } 100
      (YTApiResult.ok [YTRawItem.mk none (some "i")])
      (RedditApiResult.ok [RedditRawItem.mk (some "P") "/r/x/1" "x"])).errors = [] ∧
    (sync_content
      { initial_session with
        youtube_credentials := some "t", youtube_api := some "t"
        reddit := some "r" } 100
      (YTApiResult.ok [YTRawItem.mk none (some "i")])
      (RedditApiResult.ok [RedditRawItem.mk (some "P") "/r/x/1" "x"])).fetchedReddit =
      false ∧
    (sync_content
      { initial_session with
        youtube_credentials := some "t", youtube_api := some "t"
        reddit := some "r" } 100
      (YTApiResult.ok [YTRawItem.mk none (some "i")])
      (RedditApiResult.ok [RedditRawItem.mk (some "P") "/r/x/1" "x"])).state.last_sync_time =
      0 := by
  decide

/-- Claim C7 as amended: the error contract holds for the failures each
fetcher actually catches — a YouTube `HttpError` (first conjunct) and any
Reddit exception (second conjunct, for every session whose Reddit client is
present, including Reddit-only sessions: the YouTube gate may be absent or
its fetch return normally) are surfaced inline with the provider's list
reset to empty, the other provider's fetch unaffected (it completes exactly
when its gate is present) and the timestamp advanced — but a YouTube
exception that is not an `HttpError` (such as an unexpected payload shape)
propagates uncaught, aborting the evaluation with no message, no Reddit
fetch and no timestamp advance (third conjunct). -/
theorem C7_amended_fetch_errors :
    (∀ (s : SessionState) (now : Int) (rd : RedditApiResult) (msg : String),
      s.sync_interval ≤ now - s.last_sync_time →
      s.youtube_api.isSome = true →
      (sync_content s now (YTApiResult.httpError msg) rd).state.youtube_videos = [] ∧
      ("Error fetching YouTube videos: " ++ msg) ∈
        (sync_content s now (YTApiResult.httpError msg) rd).errors ∧
      (sync_content s now (YTApiResult.httpError msg) rd).fetchedReddit =
        s.reddit.isSome ∧
      (sync_content s now (YTApiResult.httpError msg) rd).state.last_sync_time = now ∧
      (sync_content s now (YTApiResult.httpError msg) rd).raised = none) ∧
    (∀ (s : SessionState) (now : Int) (yt : YTApiResult) (msg : String)
       (vids : List SavedItem) (errs : List String),
      s.sync_interval ≤ now - s.last_sync_time →
      s.reddit.isSome = true →
      (s.youtube_api = none ∨
        fetch_youtube_saved_videos yt = Except.ok (vids, errs)) →
      (sync_content s now yt (RedditApiResult.exn msg)).state.reddit_posts = [] ∧
      ("Error fetching Reddit posts: " ++ msg) ∈
        (sync_content s now yt (RedditApiResult.exn msg)).errors ∧
      (sync_content s now yt (RedditApiResult.exn msg)).fetchedYT =
        s.youtube_api.isSome ∧
      (sync_content s now yt (RedditApiResult.exn msg)).state.last_sync_time = now ∧
      (sync_content s now yt (RedditApiResult.exn msg)).raised = none) ∧
    (∀ (s : SessionState) (now : Int) (yt : YTApiResult) (rd : RedditApiResult)
       (e : String),
      s.sync_interval ≤ now - s.last_sync_time →
      s.youtube_api.isSome = true →
      fetch_youtube_saved_videos yt = Except.error e →
      (sync_content s now yt rd).raised = some e ∧
      (sync_content s now yt rd).errors = [] ∧
      (sync_content s now yt rd).fetchedReddit = false ∧
      (sync_content s now yt rd).state = s) := by
  refine ⟨?_, ?_, ?_⟩
  · intro s now rd msg hstale hapi
    unfold sync_content
    rw [if_pos hstale, if_pos hapi]
    dsimp only [fetch_youtube_saved_videos]
    unfold sync_content_aux
    split <;> simp_all
  · intro s now yt msg vids errs hstale hrd hyt
    have hcore := sync_content_stale_reddit s now yt (RedditApiResult.exn msg)
      vids errs hstale hrd hyt
    refine ⟨?_, ?_, hcore.2.2.1, hcore.2.2.2.2.1, hcore.1⟩
    · rw [hcore.2.2.2.1]
      rfl
    · exact hcore.2.2.2.2.2 (by simp [fetch_reddit_saved_posts])
  · intro s now yt rd e hstale hapi hfetch
    unfold sync_content
    rw [if_pos hstale, if_pos hapi, hfetch]
    dsimp only
    exact ⟨rfl, rfl, rfl, rfl⟩

/-- Witness for C7's amended claim: the three conjuncts applied at concrete
Stale evaluations — the YouTube `HttpError` and the uncaught `KeyError` with
both providers live, and the Reddit exception on a Reddit-only session. -/
theorem C7_amended_fetch_errors_witness :
    ((sync_content
        { initial_session with
          youtube_credentials := some "t", youtube_api := some "t"
          reddit := some "r" } 100 (YTApiResult.httpError "500")
        (RedditApiResult.ok [RedditRawItem.mk (some "P") "/r/x/1" "x"])).state.youtube_videos =
        [] ∧
      ("Error fetching YouTube videos: " ++ "500") ∈
        (sync_content
          { initial_session with
            youtube_credentials := some "t", youtube_api := some "t"
            reddit := some "r" } 100 (YTApiResult.httpError "500")
          (RedditApiResult.ok [RedditRawItem.mk (some "P") "/r/x/1" "x"])).errors ∧
      (sync_content
        { initial_session with
          youtube_credentials := some "t", youtube_api := some "t"
          reddit := some "r" } 100 (YTApiResult.httpError "500")
        (RedditApiResult.ok [RedditRawItem.mk (some "P") "/r/x/1" "x"])).fetchedReddit =
        ({ initial_session with
          youtube_credentials := some "t", youtube_api := some "t"
          reddit := some "r" } : SessionState).reddit.isSome ∧
      (sync_content
        { initial_session with
          youtube_credentials := some "t", youtube_api := some "t"
          reddit := some "r" } 100 (YTApiResult.httpError "500")
        (RedditApiResult.ok [RedditRawItem.mk (some "P") "/r/x/1" "x"])).state.last_sync_time =
        100 ∧
      (sync_content
        { initial_session with
          youtube_credentials := some "t", youtube_api := some "t"
          reddit := some "r" } 100 (YTApiResult.httpError "500")
        (RedditApiResult.ok [RedditRawItem.mk (some "P") "/r/x/1" "x"])).raised =
        none) ∧
    ((sync_content { initial_session with reddit := some "r" } 100
        (YTApiResult.ok [])
        (RedditApiResult.exn "timeout")).state.reddit_posts = [] ∧
      ("Error fetching Reddit posts: " ++ "timeout") ∈
        (sync_content { initial_session with reddit := some "r" } 100
          (YTApiResult.ok [])
          (RedditApiResult.exn "timeout")).errors ∧
      (sync_content { initial_session with reddit := some "r" } 100
        (YTApiResult.ok [])
        (RedditApiResult.exn "timeout")).fetchedYT =
        ({ initial_session with reddit := some "r" } : SessionState).youtube_api.isSome ∧
      (sync_content { initial_session with reddit := some "r" } 100
        (YTApiResult.ok [])
        (RedditApiResult.exn "timeout")).state.last_sync_time = 100 ∧
      (sync_content { initial_session with reddit := some "r" } 100
        (YTApiResult.ok [])
        (RedditApiResult.exn "timeout")).raised = none) ∧
    ((sync_content
        { initial_session with
          youtube_credentials := some "t", youtube_api := some "t"
          reddit := some "r" } 100 (YTApiResult.ok [YTRawItem.mk none (some "i")])
        (RedditApiResult.ok [])).raised =
        some ("KeyError: " ++ "'" ++ "snippet" ++ "'") ∧
      (sync_content
        { initial_session with
          youtube_credentials := some "t", youtube_api := some "t"
          reddit := some "r" } 100 (YTApiResult.ok [YTRawItem.mk none (some "i")])
        (RedditApiResult.ok [])).errors = [] ∧
      (sync_content
        { initial_session with
          youtube_credentials := some "t", youtube_api := some "t"
          reddit := some "r" } 100 (YTApiResult.ok [YTRawItem.mk none (some "i")])
        (RedditApiResult.ok [])).fetchedReddit = false ∧
      (sync_content
        { initial_session with
          youtube_credentials := some "t", youtube_api := some "t"
          reddit := some "r" } 100 (YTApiResult.ok [YTRawItem.mk none (some "i")])
        (RedditApiResult.ok [])).state =
        { initial_session with
          youtube_credentials := some "t", youtube_api := some "t"
          reddit := some "r" }) :=
  ⟨C7_amended_fetch_errors.1
      { initial_session with
        youtube_credentials := some "t", youtube_api := some "t"
        reddit := some "r" } 100
      (RedditApiResult.ok [RedditRawItem.mk (some "P") "/r/x/1" "x"]) "500"
      (by decide) (by decide),
   C7_amended_fetch_errors.2.1
      { initial_session with reddit := some "r" } 100 (YTApiResult.ok [])
      "timeout" [] [] (by decide) (by decide) (Or.inl rfl),
   C7_amended_fetch_errors.2.2
      { initial_session with
        youtube_credentials := some "t", youtube_api := some "t"
        reddit := some "r" } 100 (YTApiResult.ok [YTRawItem.mk none (some "i")])
      (RedditApiResult.ok []) ("KeyError: " ++ "'" ++ "snippet" ++ "'")
      (by decide) (by decide) (by decide)⟩

/-- Claim C8 counterexample: with the `[reddit]` section present but its
`client_secret` absent, startup does abort before any UI, but the message is
built from `str(KeyError)` of the inner lookup, which carries only the leaf
key: the error shown is "Missing secret: 'client_secret'. ..." and does not
name `reddit.client_secret` as the claim requires. -/
theorem C8_counterexample :
    startup_error_message
      (Secrets.mk (some (YoutubeSecrets.mk (some "json")))
        (some (RedditSecrets.mk (some "id") none (some "agent")))) =
      some ("Missing secret: " ++ "'" ++ "client_secret" ++ "'" ++
        ". Please configure secrets.toml with YouTube and Reddit credentials.") ∧
    strContains
      ("Missing secret: " ++ "'" ++ "client_secret" ++ "'" ++
        ". Please configure secrets.toml with YouTube and Reddit credentials.")
      "reddit.client_secret" = false ∧
    app_renders_ui
      (Secrets.mk (some (YoutubeSecrets.mk (some "json")))
        (some (RedditSecrets.mk (some "id") none (some "agent")))) = false := by
  decide

/-- Claim C8 as amended: if any of the four required configuration values is
absent at startup, the program aborts before rendering any UI with a single
human-readable error that names the innermost missing key as carried by the
`KeyError` (for the Reddit client secret case, `client_secret` — without the
section prefix `reddit.`). -/
theorem C8_amended_startup_abort :
    ∀ (sec : Secrets) (k : String),
      load_secrets sec = Except.error k →
      app_renders_ui sec = false ∧
      startup_error_message sec =
        some ("Missing secret: " ++ "'" ++ k ++ "'" ++
          ". Please configure secrets.toml with YouTube and Reddit credentials.") := by
  intro sec k h
  constructor
  · unfold app_renders_ui
    rw [h]
    rfl
  · unfold startup_error_message
    rw [h]

/-- Witness for C8's amended claim: the Reddit client secret missing. -/
theorem C8_amended_startup_abort_witness :
    app_renders_ui
      (Secrets.mk (some (YoutubeSecrets.mk (some "json")))
        (some (RedditSecrets.mk (some "id") none (some "agent")))) = false ∧
    startup_error_message
      (Secrets.mk (some (YoutubeSecrets.mk (some "json")))
        (some (RedditSecrets.mk (some "id") none (some "agent")))) =
      some ("Missing secret: " ++ "'" ++ "client_secret" ++ "'" ++
        ". Please configure secrets.toml with YouTube and Reddit credentials.") :=
  C8_amended_startup_abort
    (Secrets.mk (some (YoutubeSecrets.mk (some "json")))
      (some (RedditSecrets.mk (some "id") none (some "agent"))))
    "client_secret" (by decide)
